import Mathlib

/-!
Verification of the asasvirtuais data-binding library core: a shallow
embedding of the table index, the mem-interface CRUD adapter, the query
filter pipeline, the action state machines and the fetch adapter request
mapping, together with proofs of the specified properties.
-/

namespace Asas

/-- A JavaScript runtime value, restricted to the fragment the library
manipulates: undefined, null, booleans, (integer) numbers, strings,
arrays and plain objects (as association lists in insertion order). -/
inductive Value where
  | vUndef
  | vNull
  | vBool (b : Bool)
  | vNum (n : Int)
  | vStr (s : String)
  | vArr (elems : List Value)
  | vObj (fields : List (String × Value))

/-- A record (a plain JS object): field name to value, in insertion order. -/
def Rec : Type := List (String × Value)

/-- Property access `obj[key]`: the value of the first matching field,
`undefined` when the field is absent. -/
def recGet (r : Rec) (k : String) : Value :=
  match r.find? (fun kv => kv.1 == k) with
  | some kv => kv.2
  | none => Value.vUndef

/-- JS strict equality `===` on the modelled fragment: structural on
primitives; arrays and objects compare by reference, and since a query
value and a stored record value are never the same object, they compare
unequal. -/
def jsStrictEq : Value → Value → Bool
  | Value.vUndef, Value.vUndef => true
  | Value.vNull, Value.vNull => true
  | Value.vBool a, Value.vBool b => a == b
  | Value.vNum a, Value.vNum b => a == b
  | Value.vStr a, Value.vStr b => a == b
  | _, _ => false

/-- Lexicographic comparison of character sequences by code unit, the
order JS `<` uses on strings. -/
def charListLt : List Char → List Char → Bool
  | [], [] => false
  | [], _ :: _ => true
  | _ :: _, [] => false
  | a :: as, b :: bs =>
      if a.val < b.val then true
      else if b.val < a.val then false
      else charListLt as bs

/-- JS `<` on the homogeneous fragment the library compares (numbers with
numbers, strings with strings lexicographically); other combinations
(which JS coerces or resolves to NaN comparisons) are false. -/
def jsLt : Value → Value → Bool
  | Value.vNum a, Value.vNum b => decide (a < b)
  | Value.vStr a, Value.vStr b => charListLt a.toList b.toList
  | _, _ => false

/-- JS `<=` on the same fragment as `jsLt`; on that fragment the order is
total, so `a <= b` is the negation of `b < a`. -/
def jsLe : Value → Value → Bool
  | Value.vNum a, Value.vNum b => decide (a ≤ b)
  | Value.vStr a, Value.vStr b => !(charListLt b.toList a.toList)
  | _, _ => false

/-- JS truthiness of a value. -/
def jsTruthy : Value → Bool
  | Value.vUndef => false
  | Value.vNull => false
  | Value.vBool b => b
  | Value.vNum n => n != 0
  | Value.vStr s => s != ""
  | Value.vArr _ => true
  | Value.vObj _ => true

/-- JS ToInteger as used by `Array.prototype.slice` on the modelled
fragment: numbers pass through, booleans and null coerce to 0 or 1,
undefined and non-numeric values coerce to 0 (NaN is truncated to 0). -/
def valueToInt : Value → Int
  | Value.vNum n => n
  | Value.vBool true => 1
  | _ => 0

/-- `arr.slice(n)`: drop the first `n` elements; a negative `n` counts
from the end. -/
def jsSliceFrom (rs : List α) (n : Int) : List α :=
  let start := if n < 0 then (Int.ofNat rs.length + n).toNat else n.toNat
  rs.drop start

/-- `arr.slice(0, n)`: keep the first `n` elements; a negative `n` counts
from the end. -/
def jsSliceTo (rs : List α) (n : Int) : List α :=
  let stop := if n < 0 then (Int.ofNat rs.length + n).toNat else n.toNat
  rs.take stop

/-- A JS object used as a map (extensional view): key to optional value. -/
def JsMap (α : Type) : Type := String → Option α

/-- The empty object. -/
def emptyMap : JsMap α := fun _ => none

/-- `Object.fromEntries(pairs)` viewed extensionally: for each key the
last assignment wins. -/
def objFromEntries (pairs : List (String × α)) : JsMap α :=
  fun k => (pairs.reverse.find? (fun kv => kv.1 == k)).map (fun kv => kv.2)

/-- Object spread `{...a, ...b}` viewed extensionally: keys of `b` win. -/
def objSpread (a b : JsMap α) : JsMap α :=
  fun k =>
    match b k with
    | some v => some v
    | none => a k

/-! ## Table Index (`useIndex` in the hooks module) -/

/-- `useIndex.set(...params)`: functional update
`prev => ({...prev, ...Object.fromEntries(params.map(data => [data.id, data]))})`.
`idOf` models the TS projection `(data as T & {id: string}).id`. -/
def indexSet (idOf : α → String) (idx : JsMap α) (params : List α) : JsMap α :=
  objSpread idx (objFromEntries (params.map (fun data => (idOf data, data))))

/-- One iteration of the loop in `useIndex.unset`: copy the state and,
when an entry for the record's id is present, delete it. -/
def indexUnsetStep (idOf : α → String) (m : JsMap α) (data : α) : JsMap α :=
  match m (idOf data) with
  | some _ => fun k => if k = idOf data then none else m k
  | none => m

/-- `useIndex.unset(...params)`: start from a copy of the previous state
and delete the entry of each given record's id when present. -/
def indexUnset (idOf : α → String) (idx : JsMap α) (params : List α) : JsMap α :=
  params.foldl (indexUnsetStep idOf) idx

/-! ## Table Synchronization Core (`useInterface` in react-interface) -/

/-- The `find`/`create`/`update` wrappers in `useInterface`: on a
resolved interface call, `index.set(res)` runs and the result is passed
through; on a rejected call the `.then` continuation is skipped, the
index is untouched and the rejection propagates. -/
def useInterfaceSetStep (idOf : α → String) (idx : JsMap α)
    (outcome : Except ε α) : JsMap α × Except ε α :=
  match outcome with
  | Except.ok res => (indexSet idOf idx [res], Except.ok res)
  | Except.error e => (idx, Except.error e)

/-- The `remove` wrapper in `useInterface`: on success `index.unset(res)`
runs; on rejection the index is untouched. -/
def useInterfaceRemoveStep (idOf : α → String) (idx : JsMap α)
    (outcome : Except ε α) : JsMap α × Except ε α :=
  match outcome with
  | Except.ok res => (indexUnset idOf idx [res], Except.ok res)
  | Except.error e => (idx, Except.error e)

/-- The `list` wrapper in `useInterface`: on success `index.set(...arr)`
runs with the whole result array; on rejection the index is untouched. -/
def useInterfaceListStep (idOf : α → String) (idx : JsMap α)
    (outcome : Except ε (List α)) : JsMap α × Except ε (List α) :=
  match outcome with
  | Except.ok arr => (indexSet idOf idx arr, Except.ok arr)
  | Except.error e => (idx, Except.error e)

/-- The react layer keys index entries by the record's `id` field, typed
as a string in TS (`T & {id: string}`). -/
def recId (r : Rec) : String :=
  match recGet r "id" with
  | Value.vStr s => s
  | _ => ""

/-! ## In-memory adapter (`memInterface` in mem-interface) -/

/-- One table of the mem store: id to record. -/
def MemTable : Type := JsMap Rec

/-- The closed-over `store` of `memInterface`: table name to table. -/
def MemStore : Type := JsMap MemTable

/-- `getTable`: the table's map, an empty one when absent (the code also
writes the created empty table back into the store; see `memEnsure`). -/
def getTable (store : MemStore) (table : String) : MemTable :=
  (store table).getD (fun _ => none)

/-- The `if (!store[table]) store[table] = {}` side effect of `getTable`. -/
def memEnsure (store : MemStore) (table : String) : MemStore :=
  fun t => if t = table then some (getTable store table) else store t

/-- The NotFound error message thrown by the mem adapter. -/
def notFoundMsg (id table suffix : String) : String :=
  "Record with id " ++ id ++ " not found in " ++ table ++ suffix

/-- `memInterface.find`: throws NotFound when the id has no record. -/
def memFind (store : MemStore) (table id : String) :
    MemStore × Except String Rec :=
  let store1 := memEnsure store table
  match getTable store table id with
  | some record => (store1, Except.ok record)
  | none => (store1, Except.error (notFoundMsg id table ""))

/-- Record spread `{...a, ...b}` on association-list records: the fields
of `a` in order with values overridden by `b`, then the fields of `b`
absent from `a` in order. -/
def recSpread (a b : Rec) : Rec :=
  a.map (fun kv =>
    (kv.1, match b.find? (fun kv2 => kv2.1 == kv.1) with
           | some kv2 => kv2.2
           | none => kv.2))
  ++ b.filter (fun kv2 => !(a.any (fun kv => kv.1 == kv2.1)))

/-- `memInterface.update`: throws NotFound when the id has no record,
otherwise stores and returns `{...t[id], ...data}`. -/
def memUpdate (store : MemStore) (table id : String) (data : Rec) :
    MemStore × Except String Rec :=
  let store1 := memEnsure store table
  let t := getTable store table
  match t id with
  | none => (store1, Except.error (notFoundMsg id table ", cannot update."))
  | some record =>
      let merged := recSpread record data
      (fun tt => if tt = table
                 then some (fun k => if k = id then some merged else t k)
                 else store1 tt,
       Except.ok merged)

/-- `memInterface.remove`: throws NotFound when the id has no record,
otherwise deletes the entry and returns the record as it was. -/
def memRemove (store : MemStore) (table id : String) :
    MemStore × Except String Rec :=
  let store1 := memEnsure store table
  let t := getTable store table
  match t id with
  | none => (store1, Except.error (notFoundMsg id table ", cannot remove."))
  | some record =>
      (fun tt => if tt = table
                 then some (fun k => if k = id then none else t k)
                 else store1 tt,
       Except.ok record)

/-! ## Query evaluation (`memInterface.list`) -/

/-- One operator clause of a per-field operator object
(`switch (op) {...}` in `memInterface.list`); unknown operators fall to
the `default: return true` branch. -/
def evalOp (op : String) (opValue itemValue : Value) : Bool :=
  match op with
  | "$ne" => !(jsStrictEq itemValue opValue)
  | "$in" =>
      match opValue with
      | Value.vArr xs => xs.any (fun x => jsStrictEq x itemValue)
      | _ => false
  | "$nin" =>
      match opValue with
      | Value.vArr xs => !(xs.any (fun x => jsStrictEq x itemValue))
      | _ => false
  | "$lt" => jsLt itemValue opValue
  | "$lte" => jsLe itemValue opValue
  | "$gt" => jsLt opValue itemValue
  | "$gte" => jsLe opValue itemValue
  | _ => true

/-- One filter entry `[key, value]` applied to an item: a non-null,
non-array object value is an operator object whose clauses must all
hold; any other value is compared with strict equality. -/
def filterClause (item : Rec) (key : String) (v : Value) : Bool :=
  let itemValue := recGet item key
  match v with
  | Value.vObj ops => ops.all (fun okv => evalOp okv.1 okv.2 itemValue)
  | _ => jsStrictEq itemValue v

/-- The filter stage of `memInterface.list`: applied only when the rest
object (the query minus `$limit`, `$skip`, `$sort`) is nonempty. -/
def applyFilters (filters : List (String × Value)) (rs : List Rec) : List Rec :=
  if filters.isEmpty then rs
  else rs.filter (fun item => filters.all (fun kv => filterClause item kv.1 kv.2))

/-- `direction === -1` (strict equality with the number -1). -/
def isMinusOne : Value → Bool
  | Value.vNum n => n == -1
  | _ => false

/-- The sort comparator of `memInterface.list`, as the strict
comes-before relation (comparator result < 0). -/
def sortLt (key : String) (dir : Value) (a b : Rec) : Bool :=
  if jsLt (recGet a key) (recGet b key) then !(isMinusOne dir)
  else if jsLt (recGet b key) (recGet a key) then isMinusOne dir
  else false

/-- Insert an element into an already-sorted list, before any element it
ties with (the element being inserted comes earlier in the input). -/
def insertSorted (lt : α → α → Bool) (x : α) : List α → List α
  | [] => [x]
  | y :: ys => if lt y x then y :: insertSorted lt x ys else x :: y :: ys

/-- A stable sort, modelling `Array.prototype.sort` (stable per ES2019). -/
def jsStableSort (lt : α → α → Bool) (l : List α) : List α :=
  l.foldr (insertSorted lt) []

/-- The sort stage of `memInterface.list`: only for a truthy `$sort`;
`Object.keys($sort)[0]` picks the first key, its value the direction; a
`$sort` without a first key compares every pair equal, leaving the
(stable-sorted) array unchanged. -/
def applySort (srt : Value) (rs : List Rec) : List Rec :=
  if jsTruthy srt then
    match srt with
    | Value.vObj ((k, d) :: _) => jsStableSort (sortLt k d) rs
    | _ => rs
  else rs

/-- The skip stage: `if ($skip) results = results.slice($skip)`. -/
def applySkip (skp : Value) (rs : List Rec) : List Rec :=
  if jsTruthy skp then jsSliceFrom rs (valueToInt skp) else rs

/-- The limit stage: `if ($limit) results = results.slice(0, $limit)`. -/
def applyLimit (lim : Value) (rs : List Rec) : List Rec :=
  if jsTruthy lim then jsSliceTo rs (valueToInt lim) else rs

/-- The rest object of `const { $limit, $skip, $sort, ...filters } = query`:
every other entry of the query — including `$select`, which this
destructuring does not pull out — becomes a filter. -/
def restFilters (q : Rec) : List (String × Value) :=
  q.filter (fun kv => kv.1 != "$limit" && kv.1 != "$skip" && kv.1 != "$sort")

/-- `memInterface.list` over the materialized `Object.values(t)` array:
filters, then sort, then skip, then limit; no projection stage exists. -/
def memList (t : List Rec) (query : Option Rec) : List Rec :=
  match query with
  | none => t
  | some q =>
      applyLimit (recGet q "$limit")
        (applySkip (recGet q "$skip")
          (applySort (recGet q "$sort")
            (applyFilters (restFilters q) t)))

/-- The query pipeline as the specification and the sibling
yaml-interface adapter state it, for comparison with `memList`: the
destructuring also pulls `$select` out of the filters, and a final
projection stage keeps `id` plus the selected fields. -/
def specListQuery (t : List Rec) (query : Option Rec) : List Rec :=
  match query with
  | none => t
  | some q =>
      let filters := q.filter (fun kv =>
        kv.1 != "$limit" && kv.1 != "$skip" && kv.1 != "$sort" && kv.1 != "$select")
      let rs :=
        applyLimit (recGet q "$limit")
          (applySkip (recGet q "$skip")
            (applySort (recGet q "$sort")
              (applyFilters filters t)))
      match recGet q "$select" with
      | Value.vArr fields =>
          rs.map (fun record =>
            ("id", recGet record "id")
              :: (record.filter (fun kv =>
                    kv.1 != "id" && fields.any (fun f => jsStrictEq f (Value.vStr kv.1)))))
      | _ => rs

/-! ## Action state machines -/

/-- The loading/error/result state of one Action Unit. -/
structure ActionState (ε ρ : Type) where
  loading : Bool
  error : Option ε
  result : Option ρ

/-- The state of a freshly created Action Unit. -/
def ActionState.initial : ActionState ε ρ :=
  { loading := false, error := none, result := none }

/-- A generic JS object argument, extensional view. -/
def Obj : Type := JsMap Value

/-- The argument `useAction.trigger` passes to the wrapped operation:
`{...props, ...defaults}` — the configured defaults spread last. -/
def useActionArgs (props defaults : Obj) : Obj :=
  objSpread props defaults

/-- One settled `useAction.trigger` call (hooks module): sets loading,
runs the operation on the merged argument, on success stores the result,
on failure stores the error and rethrows; the `finally` clears loading in
both outcomes. It never clears a previous error or result. -/
def useActionTrigger (action : Obj → Except ε ρ) (defaults : Obj)
    (s : ActionState ε ρ) (props : Obj) : ActionState ε ρ × Except ε ρ :=
  let s1 : ActionState ε ρ := { s with loading := true }
  match action (useActionArgs props defaults) with
  | Except.ok r => ({ s1 with result := some r, loading := false }, Except.ok r)
  | Except.error e => ({ s1 with error := some e, loading := false }, Except.error e)

/-- The synchronous prefix of `useActionProvider.submit` (action module):
`setLoading(true); setError(null)`. -/
def submitStart (s : ActionState ε ρ) : ActionState ε ρ :=
  { s with loading := true, error := none }

/-- One settled `useActionProvider.submit` call: after `submitStart`,
runs the action on the provider's params; on success stores the result
and resolves with `false`, on failure stores the error and rethrows; the
`finally` clears loading. The previous result is never cleared. -/
def submit (action : Obj → Except ε ρ) (params : Obj)
    (s : ActionState ε ρ) : ActionState ε ρ × Except ε Bool :=
  let s1 := submitStart s
  match action params with
  | Except.ok r => ({ s1 with result := some r, loading := false }, Except.ok false)
  | Except.error e => ({ s1 with error := some e, loading := false }, Except.error e)

/-! ## HTTP adapter (`fetchInterface`) -/

inductive HttpMethod where
  | GET
  | POST
  | PATCH
  | DELETE

/-- List spread `{...a, ...b}` on string association lists (headers). -/
def listSpread (a b : List (String × String)) : List (String × String) :=
  a.map (fun kv =>
    (kv.1, match b.find? (fun kv2 => kv2.1 == kv.1) with
           | some kv2 => kv2.2
           | none => kv.2))
  ++ b.filter (fun kv2 => !(a.any (fun kv => kv.1 == kv2.1)))

/-- The request issued through the global `fetch`; the body is the value
passed to `JSON.stringify`, when present. -/
structure HttpRequest where
  method : HttpMethod
  url : String
  headers : List (String × String)
  body : Option Value

/-- The part of a fetch response the adapter inspects: `response.ok`
(status in the 2xx range) and the parsed JSON body. -/
structure HttpResponse where
  ok : Bool
  body : Value

/-- The hexadecimal digits used by percent-encoding. -/
def hexDigit (n : Nat) : Char :=
  ['0', '1', '2', '3', '4', '5', '6', '7', '8', '9',
   'A', 'B', 'C', 'D', 'E', 'F'].getD n '0'

/-- Bytes that `URLSearchParams` serializes without escaping. -/
def isUrlSafeByte (b : UInt8) : Bool :=
  (0x30 ≤ b && b ≤ 0x39) || (0x41 ≤ b && b ≤ 0x5A) || (0x61 ≤ b && b ≤ 0x7A) ||
    b == 0x2A || b == 0x2D || b == 0x2E || b == 0x5F

/-- application/x-www-form-urlencoded escaping of one component, over the
UTF-8 bytes: safe bytes pass through, space becomes `+`, every other
byte becomes a percent escape. -/
def formUrlEncode (s : String) : String :=
  String.join (s.toUTF8.toList.map (fun b =>
    if b == 0x20 then "+"
    else if isUrlSafeByte b then String.singleton (Char.ofNat b.toNat)
    else "%" ++ String.singleton (hexDigit (b.toNat / 16))
             ++ String.singleton (hexDigit (b.toNat % 16))))

/-- `String(value)` as applied by `URLSearchParams` to entry values. -/
def jsToString : Value → String
  | Value.vUndef => "undefined"
  | Value.vNull => "null"
  | Value.vBool b => cond b "true" "false"
  | Value.vNum n => toString n
  | Value.vStr s => s
  | Value.vArr xs =>
      String.intercalate ","
        (xs.map (fun x =>
          match x with
          | Value.vUndef => ""
          | Value.vNull => ""
          | Value.vStr s => s
          | Value.vBool b => cond b "true" "false"
          | Value.vNum n => toString n
          | _ => "[object Object]"))
  | Value.vObj _ => "[object Object]"

/-- `new URLSearchParams(query).toString()`: the entries of the query
object, stringified and form-url-encoded, joined with `&`. -/
def urlSearchParams (q : Rec) : String :=
  String.intercalate "&" (q.map (fun kv =>
    formUrlEncode kv.1 ++ "=" ++ formUrlEncode (jsToString kv.2)))

/-- `fetchInterface.find`: GET on base/table/id, no body. -/
def fetchFindReq (baseUrl : String) (headers : List (String × String))
    (table id : String) : HttpRequest :=
  { method := HttpMethod.GET, url := baseUrl ++ "/" ++ table ++ "/" ++ id,
    headers := headers, body := none }

/-- `fetchInterface.create`: POST on base/table with the data as JSON. -/
def fetchCreateReq (baseUrl : String) (headers : List (String × String))
    (table : String) (data : Value) : HttpRequest :=
  { method := HttpMethod.POST, url := baseUrl ++ "/" ++ table,
    headers := listSpread [("Content-Type", "application/json")] headers,
    body := some data }

/-- `fetchInterface.update`: PATCH on base/table/id with the data as JSON. -/
def fetchUpdateReq (baseUrl : String) (headers : List (String × String))
    (table id : String) (data : Value) : HttpRequest :=
  { method := HttpMethod.PATCH, url := baseUrl ++ "/" ++ table ++ "/" ++ id,
    headers := listSpread [("Content-Type", "application/json")] headers,
    body := some data }

/-- `fetchInterface.remove`: DELETE on base/table/id, no body. -/
def fetchRemoveReq (baseUrl : String) (headers : List (String × String))
    (table id : String) : HttpRequest :=
  { method := HttpMethod.DELETE, url := baseUrl ++ "/" ++ table ++ "/" ++ id,
    headers := headers, body := none }

/-- `fetchInterface.list`: GET on base/table with the query object
URL-encoded into the query string, no body. -/
def fetchListReq (baseUrl : String) (headers : List (String × String))
    (table : String) (query : Rec) : HttpRequest :=
  { method := HttpMethod.GET,
    url := baseUrl ++ "/" ++ table ++ "?" ++ urlSearchParams query,
    headers := headers, body := none }

/-- Every `fetchInterface` verb handles the response the same way:
`response.ok` resolves with the parsed JSON body, otherwise the call
rejects with an error carrying the parsed JSON error body. -/
def fetchHandle (resp : HttpResponse) : Except Value Value :=
  if resp.ok then Except.ok resp.body else Except.error resp.body

/-- A whole `fetchInterface` verb: issue the request through the
transport and handle the response. -/
def fetchRun (transport : HttpRequest → HttpResponse) (req : HttpRequest) :
    Except Value Value :=
  fetchHandle (transport req)

/-! ## Database provider (`useDatabaseProvider` in react-interface) -/

/-- `useDatabaseProvider.set(table, ...params)`: functional update
`prev => ({ [table]: { ...prev[table], ...entries } })` — the updater's
result object literally contains only the given table's key. -/
def dbSet (idOf : α → String) (store : JsMap (JsMap α)) (table : String)
    (params : List α) : JsMap (JsMap α) :=
  fun t =>
    if t = table
    then some (objSpread ((store table).getD (fun _ => none))
                (objFromEntries (params.map (fun data => (idOf data, data)))))
    else none

/-- `useDatabaseProvider.unset(table, ...params)`: its body is the same
as `set`'s — it spreads the given records in rather than deleting them. -/
def dbUnset (idOf : α → String) (store : JsMap (JsMap α)) (table : String)
    (params : List α) : JsMap (JsMap α) :=
  fun t =>
    if t = table
    then some (objSpread ((store table).getD (fun _ => none))
                (objFromEntries (params.map (fun data => (idOf data, data)))))
    else none

/-! ## Concrete instances used by the witnesses and scenario theorems -/

/-- The index `{a, b, c}` of the specification's merge-not-replace
scenario, with `String × Nat` records keyed by the first component. -/
def idxABC : JsMap (String × Nat) :=
  objFromEntries [("a", ("a", 0)), ("b", ("b", 0)), ("c", ("c", 0))]

/-- The `list` result `{a, d}` of that scenario, with a fresh version of
`a`. -/
def listAD : List (String × Nat) := [("a", 9), ("d", 1)]

/-- A two-table store for the database-provider witness. -/
def dbStoreW : JsMap (JsMap (String × Nat)) :=
  objFromEntries
    [("t1", objFromEntries [("a", ("a", 0)), ("b", ("b", 0))]),
     ("t2", objFromEntries [("x", ("x", 0))])]

/-- Seeded record 1 of end-to-end scenario B. -/
def recB1 : Rec := [("id", Value.vNum 1), ("text", Value.vStr "b"), ("completed", Value.vBool false)]

/-- Seeded record 2 of end-to-end scenario B. -/
def recB2 : Rec := [("id", Value.vNum 2), ("text", Value.vStr "a"), ("completed", Value.vBool false)]

/-- Seeded record 3 of end-to-end scenario B. -/
def recB3 : Rec := [("id", Value.vNum 3), ("text", Value.vStr "c"), ("completed", Value.vBool true)]

/-- The query of end-to-end scenario B. -/
def queryB : Rec :=
  [("completed", Value.vBool false),
   ("$sort", Value.vObj [("text", Value.vNum 1)]),
   ("$limit", Value.vNum 2)]

/-- A seeded record for the `$select` failing input. -/
def recSel : Rec := [("id", Value.vStr "1"), ("text", Value.vStr "b")]

/-- The failing query `{$select: ['text']}`. -/
def querySel : Rec := [("$select", Value.vArr [Value.vStr "text"])]

/-- A per-call input for the defaults-precedence witness. -/
def propsW : Obj := objFromEntries [("table", Value.vStr "from-input")]

/-- Configured defaults for the defaults-precedence witness. -/
def defaultsW : Obj := objFromEntries [("table", Value.vStr "from-defaults")]

/-! ## Shared lemmas about the object primitives -/

theorem objFromEntries_eq_none_of_not_mem {pairs : List (String × α)} {k : String}
    (h : k ∉ pairs.map Prod.fst) : objFromEntries pairs k = none := by
  unfold objFromEntries
  cases hf : pairs.reverse.find? (fun kv => kv.1 == k) with
  | none => rfl
  | some kv =>
      exfalso
      have hkv : kv ∈ pairs := List.mem_reverse.mp (List.mem_of_find?_eq_some hf)
      have hbeq := List.find?_some hf
      exact h (List.mem_map.mpr ⟨kv, hkv, by simpa using hbeq⟩)

theorem objFromEntries_of_mem {pairs : List (String × α)} {k : String}
    (h : k ∈ pairs.map Prod.fst) :
    ∃ kv, kv ∈ pairs ∧ kv.1 = k ∧ objFromEntries pairs k = some kv.2 := by
  cases hf : pairs.reverse.find? (fun kv => kv.1 == k) with
  | none =>
      exfalso
      obtain ⟨kv, hkv, hk⟩ := List.mem_map.mp h
      have hnone := List.find?_eq_none.mp hf kv (List.mem_reverse.mpr hkv)
      exact hnone (by simpa using hk)
  | some kv =>
      have hbeq := List.find?_some hf
      refine ⟨kv, List.mem_reverse.mp (List.mem_of_find?_eq_some hf),
              by simpa using hbeq, ?_⟩
      unfold objFromEntries
      rw [hf]
      rfl

theorem indexSet_apply_of_not_mem (idOf : α → String) (idx : JsMap α)
    (recs : List α) (k : String) (h : k ∉ recs.map idOf) :
    indexSet idOf idx recs k = idx k := by
  have h' : k ∉ (recs.map (fun data => (idOf data, data))).map Prod.fst := by
    simpa [List.map_map, Function.comp] using h
  unfold indexSet objSpread
  rw [objFromEntries_eq_none_of_not_mem h']

theorem indexSet_apply_of_mem (idOf : α → String) (idx : JsMap α)
    (recs : List α) (k : String) (h : k ∈ recs.map idOf) :
    ∃ r, r ∈ recs ∧ idOf r = k ∧ indexSet idOf idx recs k = some r := by
  have h' : k ∈ (recs.map (fun data => (idOf data, data))).map Prod.fst := by
    simpa [List.map_map, Function.comp] using h
  obtain ⟨kv, hmem, hk, heq⟩ := objFromEntries_of_mem h'
  obtain ⟨r, hr, hkv⟩ := List.mem_map.mp hmem
  refine ⟨r, hr, ?_, ?_⟩
  · have : kv.1 = idOf r := by rw [← hkv]
    rw [← this, hk]
  · unfold indexSet objSpread
    rw [heq]
    have : kv.2 = r := by rw [← hkv]
    rw [this]

/-! ## C1 -/

/-- C1: merging a successful `list` result into the index via `set`
leaves every entry whose id is not among the result ids untouched, and
overwrites every id that is among them with the list's version of that
record (merge, never replace). -/
theorem list_merge_not_replace (idOf : α → String) (idx : JsMap α)
    (rs : List α) (k : String) :
    (k ∉ rs.map idOf →
      (useInterfaceListStep (ε := String) idOf idx (Except.ok rs)).1 k = idx k)
    ∧ (k ∈ rs.map idOf →
      ∃ r, r ∈ rs ∧ idOf r = k ∧
        (useInterfaceListStep (ε := String) idOf idx (Except.ok rs)).1 k = some r) := by
  constructor
  · intro h
    exact indexSet_apply_of_not_mem idOf idx rs k h
  · intro h
    exact indexSet_apply_of_mem idOf idx rs k h

/-- C1 witness: after merging the list result `{a, d}` into the index
`{a, b, c}`, the entries `b` and `c` are untouched and `a` and `d` hold
the list's versions. -/
theorem list_merge_not_replace_witness :
    ((useInterfaceListStep (ε := String) Prod.fst idxABC (Except.ok listAD)).1 "b"
      = idxABC "b")
    ∧ ((useInterfaceListStep (ε := String) Prod.fst idxABC (Except.ok listAD)).1 "c"
      = idxABC "c")
    ∧ (∃ r, r ∈ listAD ∧ r.1 = "a" ∧
        (useInterfaceListStep (ε := String) Prod.fst idxABC (Except.ok listAD)).1 "a"
          = some r)
    ∧ (∃ r, r ∈ listAD ∧ r.1 = "d" ∧
        (useInterfaceListStep (ε := String) Prod.fst idxABC (Except.ok listAD)).1 "d"
          = some r) :=
  ⟨(list_merge_not_replace Prod.fst idxABC listAD "b").1 (by decide),
   (list_merge_not_replace Prod.fst idxABC listAD "c").1 (by decide),
   (list_merge_not_replace Prod.fst idxABC listAD "a").2 (by decide),
   (list_merge_not_replace Prod.fst idxABC listAD "d").2 (by decide)⟩

/-! ## C5 -/

/-- C5: `unset(x)` is idempotent on the index, and unsetting a record
whose id is not in the index is a no-op. -/
theorem unset_idempotent_noop (idOf : α → String) (idx : JsMap α) (x : α) :
    indexUnset idOf (indexUnset idOf idx [x]) [x] = indexUnset idOf idx [x]
    ∧ (idx (idOf x) = none → indexUnset idOf idx [x] = idx) := by
  have hsingle : ∀ m : JsMap α, indexUnset idOf m [x] = indexUnsetStep idOf m x :=
    fun _ => rfl
  constructor
  · cases h : idx (idOf x) with
    | none =>
        have h0 : indexUnsetStep idOf idx x = idx := by
          unfold indexUnsetStep
          rw [h]
        rw [hsingle, hsingle, h0]
        exact h0
    | some v =>
        have h1 : indexUnsetStep idOf idx x
            = fun k => if k = idOf x then none else idx k := by
          unfold indexUnsetStep
          rw [h]
        have h2 : indexUnsetStep idOf (fun k => if k = idOf x then none else idx k) x
            = fun k => if k = idOf x then none else idx k := by
          unfold indexUnsetStep
          simp
        rw [hsingle, hsingle, h1, h2]
  · intro h
    have h0 : indexUnsetStep idOf idx x = idx := by
      unfold indexUnsetStep
      rw [h]
    rw [hsingle, h0]

/-- C5 witness: the index holding only id `a`, with `unset` applied to a
record of id `z` (absent: no-op) and twice to a record of id `a`
(idempotent). -/
theorem unset_idempotent_noop_witness :
    (indexUnset Prod.fst (indexUnset Prod.fst idxABC [("a", 7)]) [("a", 7)]
      = indexUnset Prod.fst idxABC [("a", 7)])
    ∧ indexUnset Prod.fst idxABC [("z", 7)] = idxABC :=
  ⟨(unset_idempotent_noop Prod.fst idxABC ("a", 7)).1,
   (unset_idempotent_noop Prod.fst idxABC ("z", 7)).2 rfl⟩

/-! ## C10 -/

/-- C10: `useDatabaseProvider.unset` has the same body as `set`: it
inserts or overwrites the entries keyed by each record's id in the given
table's map and never deletes an entry, and the object the updater
returns contains only the given table's key, so every other table is
dropped from the store. -/
theorem db_unset_equals_set (idOf : α → String) (store : JsMap (JsMap α))
    (table : String) (recs : List α) :
    dbUnset idOf store table recs = dbSet idOf store table recs
    ∧ (∀ t, t ≠ table → dbUnset idOf store table recs t = none)
    ∧ (∀ k, k ∉ recs.map idOf →
        ∃ m, dbUnset idOf store table recs table = some m
          ∧ m k = ((store table).getD (fun _ => none)) k)
    ∧ (∀ k, k ∈ recs.map idOf →
        ∃ m r, dbUnset idOf store table recs table = some m
          ∧ r ∈ recs ∧ idOf r = k ∧ m k = some r) := by
  refine ⟨rfl, ?_, ?_, ?_⟩
  · intro t ht
    unfold dbUnset
    simp [ht]
  · intro k hk
    refine ⟨indexSet idOf ((store table).getD (fun _ => none)) recs, ?_, ?_⟩
    · unfold dbUnset indexSet
      simp
    · exact indexSet_apply_of_not_mem idOf _ recs k hk
  · intro k hk
    obtain ⟨r, hr, hid, heq⟩ := indexSet_apply_of_mem idOf
      ((store table).getD (fun _ => none)) recs k hk
    refine ⟨indexSet idOf ((store table).getD (fun _ => none)) recs, r, ?_, hr, hid, heq⟩
    unfold dbUnset indexSet
    simp

/-- C10 witness: unsetting the record `("a", 9)` in table `t1` of a store
that also holds a table `t2` overwrites entry `a`, keeps entry `b`, and
drops table `t2`. -/
theorem db_unset_equals_set_witness :
    (dbUnset Prod.fst dbStoreW "t1" [("a", 9)] = dbSet Prod.fst dbStoreW "t1" [("a", 9)])
    ∧ dbUnset Prod.fst dbStoreW "t1" [("a", 9)] "t2" = none
    ∧ (∃ m, dbUnset Prod.fst dbStoreW "t1" [("a", 9)] "t1" = some m
        ∧ m "b" = ((dbStoreW "t1").getD (fun _ => none)) "b")
    ∧ (∃ m r, dbUnset Prod.fst dbStoreW "t1" [("a", 9)] "t1" = some m
        ∧ r ∈ [(("a" : String), (9 : Nat))] ∧ r.1 = "a" ∧ m "a" = some r) :=
  ⟨(db_unset_equals_set Prod.fst dbStoreW "t1" [("a", 9)]).1,
   (db_unset_equals_set Prod.fst dbStoreW "t1" [("a", 9)]).2.1 "t2" (by decide),
   (db_unset_equals_set Prod.fst dbStoreW "t1" [("a", 9)]).2.2.1 "b" (by decide),
   (db_unset_equals_set Prod.fst dbStoreW "t1" [("a", 9)]).2.2.2 "a" (by decide)⟩

/-! ## C4 -/

/-- C4: a `find`, `update` or `remove` call whose id has no record in the
table rejects with the adapter's NotFound error, and the react-layer
table index is exactly the index it was before the call — the index is
mutated only on the success path. -/
theorem notfound_leaves_index_unchanged (store : MemStore) (table id : String)
    (data : Rec) (idx : JsMap Rec) (h : getTable store table id = none) :
    (memFind store table id).2 = Except.error (notFoundMsg id table "")
    ∧ (useInterfaceSetStep recId idx (memFind store table id).2).1 = idx
    ∧ (memUpdate store table id data).2
        = Except.error (notFoundMsg id table ", cannot update.")
    ∧ (useInterfaceSetStep recId idx (memUpdate store table id data).2).1 = idx
    ∧ (memRemove store table id).2
        = Except.error (notFoundMsg id table ", cannot remove.")
    ∧ (useInterfaceRemoveStep recId idx (memRemove store table id).2).1 = idx := by
  have hfind : (memFind store table id).2 = Except.error (notFoundMsg id table "") := by
    unfold memFind
    rw [h]
  have hupd : (memUpdate store table id data).2
      = Except.error (notFoundMsg id table ", cannot update.") := by
    simp only [memUpdate]
    rw [h]
  have hrem : (memRemove store table id).2
      = Except.error (notFoundMsg id table ", cannot remove.") := by
    simp only [memRemove]
    rw [h]
  refine ⟨hfind, ?_, hupd, ?_, hrem, ?_⟩
  · rw [hfind]
    rfl
  · rw [hupd]
    rfl
  · rw [hrem]
    rfl

/-- C4 witness: `update({table:'todos', id:'x', ...})` (and `find` and
`remove`) against the empty store rejects with NotFound and leaves a
nonempty concrete index untouched. -/
theorem notfound_leaves_index_unchanged_witness :
    (memFind emptyMap "todos" "x").2
      = Except.error (notFoundMsg "x" "todos" "")
    ∧ (useInterfaceSetStep recId (objFromEntries [("a", recSel)])
        (memFind emptyMap "todos" "x").2).1 = objFromEntries [("a", recSel)]
    ∧ (memUpdate emptyMap "todos" "x" [("completed", Value.vBool true)]).2
      = Except.error (notFoundMsg "x" "todos" ", cannot update.")
    ∧ (useInterfaceSetStep recId (objFromEntries [("a", recSel)])
        (memUpdate emptyMap "todos" "x" [("completed", Value.vBool true)]).2).1
      = objFromEntries [("a", recSel)]
    ∧ (memRemove emptyMap "todos" "x").2
      = Except.error (notFoundMsg "x" "todos" ", cannot remove.")
    ∧ (useInterfaceRemoveStep recId (objFromEntries [("a", recSel)])
        (memRemove emptyMap "todos" "x").2).1 = objFromEntries [("a", recSel)] :=
  notfound_leaves_index_unchanged emptyMap "todos" "x"
    [("completed", Value.vBool true)] (objFromEntries [("a", recSel)]) rfl

/-! ## C6 -/

/-- C6: an operator name outside the known set is treated as always-true
by the filter's operator switch — it never excludes a record and never
raises, whatever the operand and item values are. -/
theorem unknown_operator_always_true (op : String) (opValue itemValue : Value)
    (h : op ∉ ["$ne", "$in", "$nin", "$lt", "$lte", "$gt", "$gte"]) :
    evalOp op opValue itemValue = true := by
  simp only [List.mem_cons, List.not_mem_nil, or_false, not_or] at h
  obtain ⟨h1, h2, h3, h4, h5, h6, h7⟩ := h
  unfold evalOp
  split
  · exact absurd rfl h1
  · exact absurd rfl h2
  · exact absurd rfl h3
  · exact absurd rfl h4
  · exact absurd rfl h5
  · exact absurd rfl h6
  · exact absurd rfl h7
  · rfl

/-- C6 witness: the unknown operator `$search` (handled by the yaml
adapter but not by the mem adapter) never excludes a record. -/
theorem unknown_operator_always_true_witness :
    evalOp "$search" (Value.vStr "b") (Value.vStr "zzz") = true :=
  unknown_operator_always_true "$search" (Value.vStr "b") (Value.vStr "zzz")
    (by decide)

/-! ## C2 -/

/-- C2: evaluating `memInterface.list` at the failing input — the query
`{$select: ['text']}` against a table holding one record. The claimed
pipeline (filters, sort, skip, limit, then `$select` projection, as the
specification states and the sibling yaml adapter implements) keeps the
record and projects it; the mem adapter instead leaves `$select` among
the filters, where it compares the record's absent `$select` field with
the array and excludes every record. End-to-end scenario B, which has no
`$select`, does return `[record 2, record 1]`. -/
theorem mem_list_select_divergence :
    memList [recSel] (some querySel) = []
    ∧ specListQuery [recSel] (some querySel)
        = [[("id", Value.vStr "1"), ("text", Value.vStr "b")]]
    ∧ memList [recB1, recB2, recB3] (some queryB) = [recB2, recB1] :=
  ⟨rfl, rfl, rfl⟩

/-! ## C3 -/

/-- C3 counterexample: a failed `useAction.trigger` followed by a
successful one. The second invocation does not clear the stored error,
and after it settles both `result` and `error` are non-null — refuting
both parts of the claim on a concrete trigger sequence. -/
theorem action_state_never_both_counterexample :
    ((useActionTrigger (fun _ => Except.ok 7) emptyMap
        ((useActionTrigger (fun _ => Except.error "boom") emptyMap
          (ActionState.initial : ActionState String Nat) emptyMap).1) emptyMap).1.result
      = some 7)
    ∧ ((useActionTrigger (fun _ => Except.ok 7) emptyMap
        ((useActionTrigger (fun _ => Except.error "boom") emptyMap
          (ActionState.initial : ActionState String Nat) emptyMap).1) emptyMap).1.error
      = some "boom") :=
  ⟨rfl, rfl⟩

/-- C3 amended: `useActionProvider.submit` sets loading and clears the
previous error when invoked (`useAction.trigger` sets loading but leaves
the previous error in place); once a trigger settles, loading is false
and the side of the last outcome is set — a success stores the result
(and, through `submit`, a cleared error), while a failure stores the
error but retains the previous result, so after mixed sequences both
`result` and `error` can be non-null at once. -/
theorem action_state_lifecycle_amended (action : Obj → Except ε ρ)
    (params defaults : Obj) (s : ActionState ε ρ) :
    ((submitStart s).loading = true ∧ (submitStart s).error = none)
    ∧ (∀ r, action params = Except.ok r →
        (submit action params s).1
          = { loading := false, error := none, result := some r })
    ∧ (∀ e, action params = Except.error e →
        (submit action params s).1
          = { loading := false, error := some e, result := s.result })
    ∧ (∀ r, action (useActionArgs params defaults) = Except.ok r →
        (useActionTrigger action defaults s params).1
          = { loading := false, error := s.error, result := some r })
    ∧ (∀ e, action (useActionArgs params defaults) = Except.error e →
        (useActionTrigger action defaults s params).1
          = { loading := false, error := some e, result := s.result }) := by
  refine ⟨⟨rfl, rfl⟩, ?_, ?_, ?_, ?_⟩
  · intro r h
    simp [submit, submitStart, h]
  · intro e h
    simp [submit, submitStart, h]
  · intro r h
    simp [useActionTrigger, h]
  · intro e h
    simp [useActionTrigger, h]

/-- C3 amended witness: both machines run from the initial state on a
succeeding and on a failing operation. -/
theorem action_state_lifecycle_amended_witness :
    ((submitStart (ActionState.initial : ActionState String Nat)).loading = true)
    ∧ ((submit (fun _ => Except.ok 5) emptyMap
        (ActionState.initial : ActionState String Nat)).1
      = { loading := false, error := none, result := some 5 })
    ∧ ((submit (fun _ => Except.error "e") emptyMap
        (ActionState.initial : ActionState String Nat)).1
      = { loading := false, error := some "e", result := none })
    ∧ ((useActionTrigger (fun _ => Except.ok 5) emptyMap
        (ActionState.initial : ActionState String Nat) emptyMap).1
      = { loading := false, error := none, result := some 5 })
    ∧ ((useActionTrigger (fun _ => Except.error "e") emptyMap
        (ActionState.initial : ActionState String Nat) emptyMap).1
      = { loading := false, error := some "e", result := none }) :=
  ⟨(action_state_lifecycle_amended (fun _ => Except.ok 5) emptyMap emptyMap
      (ActionState.initial : ActionState String Nat)).1.1,
   (action_state_lifecycle_amended (fun _ => Except.ok 5) emptyMap emptyMap
      (ActionState.initial : ActionState String Nat)).2.1 5 rfl,
   (action_state_lifecycle_amended (fun _ => Except.error "e") emptyMap emptyMap
      (ActionState.initial : ActionState String Nat)).2.2.1 "e" rfl,
   (action_state_lifecycle_amended (fun _ => Except.ok 5) emptyMap emptyMap
      (ActionState.initial : ActionState String Nat)).2.2.2.1 5 rfl,
   (action_state_lifecycle_amended (fun _ => Except.error "e") emptyMap emptyMap
      (ActionState.initial : ActionState String Nat)).2.2.2.2 "e" rfl⟩

/-! ## C8 -/

/-- C8: whether the wrapped operation resolves or rejects, loading is
false once a trigger settles (the `finally` cleanup), and on rejection
the failure is captured into the error state and re-thrown to the
caller — neither `useAction.trigger` nor `useActionProvider.submit`
swallows an adapter error. -/
theorem action_error_propagation (action : Obj → Except ε ρ)
    (params defaults : Obj) (s : ActionState ε ρ) :
    ((useActionTrigger action defaults s params).1.loading = false)
    ∧ ((submit action params s).1.loading = false)
    ∧ (∀ e, action (useActionArgs params defaults) = Except.error e →
        (useActionTrigger action defaults s params).2 = Except.error e
        ∧ (useActionTrigger action defaults s params).1.error = some e)
    ∧ (∀ e, action params = Except.error e →
        (submit action params s).2 = Except.error e
        ∧ (submit action params s).1.error = some e) := by
  refine ⟨?_, ?_, ?_, ?_⟩
  · cases h : action (useActionArgs params defaults) with
    | ok r => simp [useActionTrigger, h]
    | error e => simp [useActionTrigger, h]
  · cases h : action params with
    | ok r => simp [submit, submitStart, h]
    | error e => simp [submit, submitStart, h]
  · intro e h
    constructor
    · simp [useActionTrigger, h]
    · simp [useActionTrigger, h]
  · intro e h
    constructor
    · simp [submit, submitStart, h]
    · simp [submit, submitStart, h]

/-- C8 witness: a failing operation triggered through both machines from
the initial state: loading is cleared, the error is stored and the
rejection reaches the caller. -/
theorem action_error_propagation_witness :
    ((useActionTrigger (fun _ => Except.error "boom") emptyMap
        (ActionState.initial : ActionState String Nat) emptyMap).1.loading = false)
    ∧ ((useActionTrigger (fun _ => Except.error "boom") emptyMap
        (ActionState.initial : ActionState String Nat) emptyMap).2
      = Except.error "boom")
    ∧ ((useActionTrigger (fun _ => Except.error "boom") emptyMap
        (ActionState.initial : ActionState String Nat) emptyMap).1.error
      = some "boom")
    ∧ ((submit (fun _ => Except.error "boom") emptyMap
        (ActionState.initial : ActionState String Nat)).2 = Except.error "boom")
    ∧ ((submit (fun _ => Except.error "boom") emptyMap
        (ActionState.initial : ActionState String Nat)).1.error = some "boom") :=
  ⟨(action_error_propagation (fun _ => Except.error "boom") emptyMap emptyMap
      (ActionState.initial : ActionState String Nat)).1,
   ((action_error_propagation (fun _ => Except.error "boom") emptyMap emptyMap
      (ActionState.initial : ActionState String Nat)).2.2.1 "boom" rfl).1,
   ((action_error_propagation (fun _ => Except.error "boom") emptyMap emptyMap
      (ActionState.initial : ActionState String Nat)).2.2.1 "boom" rfl).2,
   ((action_error_propagation (fun _ => Except.error "boom") emptyMap emptyMap
      (ActionState.initial : ActionState String Nat)).2.2.2 "boom" rfl).1,
   ((action_error_propagation (fun _ => Except.error "boom") emptyMap emptyMap
      (ActionState.initial : ActionState String Nat)).2.2.2 "boom" rfl).2⟩

/-! ## C9 -/

/-- C9: `useAction.trigger` invokes the operation on the merge
`{...input, ...defaults}`, so for every key present in both, the
configured default's value wins — a caller cannot override a configured
default at trigger time. -/
theorem defaults_override_input (props defaults : Obj) :
    useActionArgs props defaults = objSpread props defaults
    ∧ (∀ k v, defaults k = some v → useActionArgs props defaults k = some v)
    ∧ (∀ (action : Obj → Except ε ρ) (s : ActionState ε ρ),
        (useActionTrigger action defaults s props).2
          = action (useActionArgs props defaults)) := by
  refine ⟨rfl, ?_, ?_⟩
  · intro k v h
    unfold useActionArgs objSpread
    rw [h]
  · intro action s
    unfold useActionTrigger
    cases action (useActionArgs props defaults) with
    | ok r => rfl
    | error e => rfl

/-- C9 witness: with a `table` key configured in the defaults and a
conflicting `table` key in the per-call input, the operation receives
the default's value, and the trigger's outcome is the operation applied
to the merged argument. -/
theorem defaults_override_input_witness :
    useActionArgs propsW defaultsW "table" = some (Value.vStr "from-defaults")
    ∧ ((useActionTrigger (fun _ => (Except.ok 1 : Except String Nat)) defaultsW
        (ActionState.initial : ActionState String Nat) propsW).2
      = (fun _ => (Except.ok 1 : Except String Nat)) (useActionArgs propsW defaultsW)) :=
  ⟨(@defaults_override_input String Nat propsW defaultsW).2.1 "table"
     (Value.vStr "from-defaults") rfl,
   (@defaults_override_input String Nat propsW defaultsW).2.2
     (fun _ => (Except.ok 1 : Except String Nat))
     (ActionState.initial : ActionState String Nat)⟩

/-! ## C7 -/

/-- C7: the HTTP adapter's verb-to-request mapping — find GET
base/table/id, create POST base/table with the data as JSON body, update
PATCH base/table/id with the partial data as JSON body, remove DELETE
base/table/id, list GET base/table with the query object URL-encoded
into the query string — and every verb turns a non-2xx response into a
failure carrying the parsed JSON error body and a 2xx response into the
parsed JSON body. -/
theorem fetch_verb_mapping (baseUrl table id : String)
    (headers : List (String × String)) (data : Value) (query : Rec)
    (b : Value) (transport : HttpRequest → HttpResponse) (req : HttpRequest) :
    fetchFindReq baseUrl headers table id
      = { method := HttpMethod.GET, url := baseUrl ++ "/" ++ table ++ "/" ++ id,
          headers := headers, body := none }
    ∧ fetchCreateReq baseUrl headers table data
      = { method := HttpMethod.POST, url := baseUrl ++ "/" ++ table,
          headers := listSpread [("Content-Type", "application/json")] headers,
          body := some data }
    ∧ fetchUpdateReq baseUrl headers table id data
      = { method := HttpMethod.PATCH, url := baseUrl ++ "/" ++ table ++ "/" ++ id,
          headers := listSpread [("Content-Type", "application/json")] headers,
          body := some data }
    ∧ fetchRemoveReq baseUrl headers table id
      = { method := HttpMethod.DELETE, url := baseUrl ++ "/" ++ table ++ "/" ++ id,
          headers := headers, body := none }
    ∧ fetchListReq baseUrl headers table query
      = { method := HttpMethod.GET,
          url := baseUrl ++ "/" ++ table ++ "?" ++ urlSearchParams query,
          headers := headers, body := none }
    ∧ fetchHandle { ok := false, body := b } = Except.error b
    ∧ fetchHandle { ok := true, body := b } = Except.ok b
    ∧ fetchRun transport req = fetchHandle (transport req) :=
  ⟨rfl, rfl, rfl, rfl, rfl, rfl, rfl, rfl⟩

end Asas
